import Mathlib

/-!
Verification of the Hydromatic MQTT bridge, a shallow embedding of
src/app/mqtt.py.  Pure data is modelled directly; in-place mutation of the
aggregate state is modelled by explicit state passing (the bridge mutates the
state from a single sequential task, so the functional update is exact);
Python exceptions are modelled by an explicit result type that, like Python,
keeps the mutations already performed when an exception is raised.
-/

namespace Hydromatic

/-- JSON values as produced by json.loads (src/app/mqtt.py line 198).
Numbers are modelled as rationals: the numeric literals appearing in the
repository are only stored and compared, never computed with. -/
inductive Json where
  | null
  | bool (b : Bool)
  | num (q : ℚ)
  | str (s : String)
  | arr (elems : List Json)
  | obj (fields : List (String × Json))

/-- A value usable as a Python dict key: Python rejects unhashable keys
(lists, dicts), so the keys of every dict in this model are scalars.  In
the embedded code the keys are strings in every ordinary path; the other
scalar keys can only arise from `dict.update` on a sequence of pairs. -/
inductive PyKey where
  | null
  | bool (b : Bool)
  | num (q : ℚ)
  | str (s : String)
  deriving DecidableEq

/-- Conversion of a value to a dict key: `none` models the TypeError Python
raises on an unhashable key. -/
def Json.toKey : Json → Option PyKey
  | .null => some .null
  | .bool b => some (.bool b)
  | .num q => some (.num q)
  | .str s => some (.str s)
  | .arr _ => none
  | .obj _ => none

/-- The Python exception classes that the embedded code can raise or catch. -/
inductive PyExc where
  | unicodeDecodeError
  | jsonDecodeError
  | typeError
  | valueError
  | mqttError
  | testError
  deriving DecidableEq

/-- Result of running a statement sequence that may raise: like Python, an
exception does not roll back the mutations already performed, so the state at
raise time is kept alongside the exception. -/
inductive PyResult (σ : Type) where
  | ok (s : σ)
  | exc (e : PyExc) (s : σ)

/-- Sequential composition of two Python statement blocks: the second runs
only when the first did not raise. -/
def pyseq {σ : Type} (a b : σ → PyResult σ) (s : σ) : PyResult σ :=
  match a s with
  | .ok s1 => b s1
  | .exc e s1 => .exc e s1

/-- A Python dict object: an insertion-ordered association list with
hashable keys. -/
abbrev PyDict := List (PyKey × Json)

/-- A decoded JSON object (`json.loads` always yields string keys). -/
abbrev JsonObj := List (String × Json)

/-- `d[k]` lookup / `k in d` test on a Python dict. -/
def lookupJ : PyDict → PyKey → Option Json
  | [], _ => none
  | (k0, v0) :: rest, k => if k0 = k then some v0 else lookupJ rest k

/-- `d[k] = v`: replaces in place when the key exists, else appends
(CPython insertion order). -/
def setItemJ : PyDict → PyKey → Json → PyDict
  | [], k, v => [(k, v)]
  | (k0, v0) :: rest, k, v =>
      if k0 = k then (k, v) :: rest else (k0, v0) :: setItemJ rest k v

/-- Unpacking one element of a sequence passed to `dict.update` into a
key/value pair: a two-element list unpacks positionally, a two-character
string unpacks into its characters, a two-entry dict unpacks into its keys;
any other length raises ValueError and a non-iterable element raises
TypeError. -/
def seqElemToPair : Json → Except PyExc (Json × Json)
  | .arr [k, v] => .ok (k, v)
  | .arr _ => .error .valueError
  | .str s =>
      match s.data with
      | [c1, c2] => .ok (.str (String.mk [c1]), .str (String.mk [c2]))
      | _ => .error .valueError
  | .obj [(k1, _), (k2, _)] => .ok (.str k1, .str k2)
  | .obj _ => .error .valueError
  | _ => .error .typeError

/-- `d.update(elems)` along the sequence-of-pairs path: elements are unpacked
and assigned one at a time, so a failure partway keeps the earlier
assignments (CPython semantics); an unhashable key raises TypeError. -/
def updateSeq : PyDict → List Json → PyResult PyDict
  | d, [] => .ok d
  | d, e :: rest =>
      match seqElemToPair e with
      | .error exc => .exc exc d
      | .ok (k, v) =>
          match k.toKey with
          | some kk => updateSeq (setItemJ d kk v) rest
          | none => .exc .typeError d

/-- `d.update(m)` along the mapping path: key-wise shallow overwrite in
iteration order. -/
def updateObjJ : PyDict → List (String × Json) → PyDict
  | d, [] => d
  | d, (k, v) :: rest => updateObjJ (setItemJ d (.str k) v) rest

/-- Python `d.update(arg)` for every argument a decoded JSON payload can
supply (called at src/app/mqtt.py lines 101 to 106): a JSON object merges
key-wise; a JSON array is consumed as a sequence of key/value pairs; the
empty string is an empty iterable (no-op); a nonempty string raises
ValueError; null, booleans and numbers are not iterable and raise
TypeError. -/
def dictUpdate (d : PyDict) : Json → PyResult PyDict
  | .obj kvs => .ok (updateObjJ d kvs)
  | .arr elems => updateSeq d elems
  | .str s => if s = "" then .ok d else .exc .valueError d
  | _ => .exc .typeError d

/-- Association-list lookup with String keys (decoded JSON objects, device
records, the devices table). -/
def lookupA {α : Type} : List (String × α) → String → Option α
  | [], _ => none
  | (k0, v) :: rest, k => if k0 = k then some v else lookupA rest k

/-- `m[k] = v` on a String-keyed dict: replace in place or append. -/
def setA {α : Type} : List (String × α) → String → α → List (String × α)
  | [], k, v => [(k, v)]
  | (k0, v0) :: rest, k, v =>
      if k0 = k then (k, v) :: rest else (k0, v0) :: setA rest k v

/-- `k in m` on a decoded JSON object. -/
def containsS (m : JsonObj) (k : String) : Bool := (lookupA m k).isSome

/-- `m.get(k, dflt)` on a decoded JSON object. -/
def getdS (m : JsonObj) (k : String) (dflt : Json) : Json := (lookupA m k).getD dflt

/-- `r.update(m)` where both sides are String-keyed dicts (device records
merged with decoded payloads, src/app/mqtt.py line 97). -/
def updateObjS : JsonObj → JsonObj → JsonObj
  | d, [] => d
  | d, (k, v) :: rest => updateObjS (setA d k v) rest

/-- The aggregate state (dataclass MQTTState, src/app/mqtt.py lines 31 to 78).
The `alerts` field is typed as an arbitrary Json value because
`merge_payload` (line 108) assigns `payload["alerts"]` without checking that
it is a list. -/
structure MQTTState where
  timestamp : String
  environment : PyDict
  reservoir : PyDict
  lighting : PyDict
  flow : PyDict
  alerts : Json
  camera : PyDict
  devices : List (String × JsonObj)

/-- The default aggregate state built at construction time; `now` stands for
`datetime.now(timezone.utc).isoformat()`. -/
def initialState (now : String) : MQTTState where
  timestamp := now
  environment := [(.str "temperature_c", .num 23.4), (.str "humidity_percent", .num 58),
    (.str "co2_ppm", .num 620), (.str "ph", .num 6.1), (.str "ec", .num 1.8)]
  reservoir := [(.str "volume_liters", .num 42), (.str "water_level_percent", .num 76),
    (.str "pump_state", .str "idle")]
  lighting := [(.str "mode", .str "auto"), (.str "intensity_percent", .num 72),
    (.str "photoperiod", .str "18/6")]
  flow := [(.str "phase", .str "ebb"), (.str "phase_remaining_seconds", .num 0),
    (.str "last_cycle_start", .null)]
  alerts := .arr [.obj [("severity", .str "info"),
    ("message", .str "All systems nominal. Scheduled calibration in 14 days.")]]
  camera := [(.str "stream", .str "rtsp://127.0.0.1:8554/hydromatic"),
    (.str "last_snapshot", .str "pending")]
  devices := []

/-- `touch()` (src/app/mqtt.py lines 92 to 93): set the timestamp to the
current wall-clock instant, passed in as `now`. -/
def MQTTState.touch (now : String) (s : MQTTState) : MQTTState :=
  { s with timestamp := now }

/-- `update_device(device_id, payload)` (src/app/mqtt.py lines 95 to 98):
setdefault the record, shallow-merge the payload into it, then stamp
`last_seen` with the store's current timestamp. -/
def MQTTState.update_device (device_id : String) (payload : JsonObj)
    (s : MQTTState) : MQTTState :=
  let record := (lookupA s.devices device_id).getD []
  let record := updateObjS record payload
  let record := setA record "last_seen" (.str s.timestamp)
  { s with devices := setA s.devices device_id record }

/-- Python line `self.environment.update(payload.get("environment", dict()))`
(src/app/mqtt.py line 101, the default written there as a literal empty
dict). -/
def mergeEnvironment (payload : JsonObj) (s : MQTTState) : PyResult MQTTState :=
  match dictUpdate s.environment (getdS payload "environment" (.obj [])) with
  | .ok d => .ok { s with environment := d }
  | .exc e d => .exc e { s with environment := d }

/-- `self.reservoir.update(...)` (src/app/mqtt.py line 102). -/
def mergeReservoir (payload : JsonObj) (s : MQTTState) : PyResult MQTTState :=
  match dictUpdate s.reservoir (getdS payload "reservoir" (.obj [])) with
  | .ok d => .ok { s with reservoir := d }
  | .exc e d => .exc e { s with reservoir := d }

/-- `self.lighting.update(...)` (src/app/mqtt.py line 103). -/
def mergeLighting (payload : JsonObj) (s : MQTTState) : PyResult MQTTState :=
  match dictUpdate s.lighting (getdS payload "lighting" (.obj [])) with
  | .ok d => .ok { s with lighting := d }
  | .exc e d => .exc e { s with lighting := d }

/-- `self.camera.update(...)` (src/app/mqtt.py line 104). -/
def mergeCamera (payload : JsonObj) (s : MQTTState) : PyResult MQTTState :=
  match dictUpdate s.camera (getdS payload "camera" (.obj [])) with
  | .ok d => .ok { s with camera := d }
  | .exc e d => .exc e { s with camera := d }

/-- `if "flow" in payload: self.flow.update(payload["flow"])`
(src/app/mqtt.py lines 105 to 106). -/
def mergeFlow (payload : JsonObj) (s : MQTTState) : PyResult MQTTState :=
  match lookupA payload "flow" with
  | none => .ok s
  | some v =>
      match dictUpdate s.flow v with
      | .ok d => .ok { s with flow := d }
      | .exc e d => .exc e { s with flow := d }

/-- `if "alerts" in payload: self.alerts = payload["alerts"]`
(src/app/mqtt.py lines 107 to 108): an unconditional assignment, with no
check that the value is a list. -/
def mergeAlerts (payload : JsonObj) (s : MQTTState) : PyResult MQTTState :=
  match lookupA payload "alerts" with
  | none => .ok s
  | some v => .ok { s with alerts := v }

/-- `merge_payload(payload)` (src/app/mqtt.py lines 100 to 108): the five
statements run in source order; an exception raised partway keeps the
mutations already performed, as in Python. -/
def MQTTState.merge_payload (payload : JsonObj) : MQTTState → PyResult MQTTState :=
  pyseq (mergeEnvironment payload) (pyseq (mergeReservoir payload)
    (pyseq (mergeLighting payload) (pyseq (mergeCamera payload)
      (pyseq (mergeFlow payload) (mergeAlerts payload)))))

/-- Modelled from the spec: hierarchical MQTT topic matching over
slash-delimited segments.  The source delegates to the third-party library
function `paho.mqtt.client.topic_matches_sub` (imported at src/app/mqtt.py
line 12 and called at line 130), whose code is not part of this repository;
the spec states the rule: `+` matches exactly one arbitrary segment, a final
`#` matches the remainder (zero or more segments), any other pattern segment
must match the topic segment literally, and the comparison is segment-wise
with `#` short-circuiting to success. -/
def matchSegs : List String → List String → Bool
  | [], ts => ts.isEmpty
  | p :: ps, ts =>
      if p = "#" ∧ ps = [] then true
      else
        match ts with
        | [] => false
        | t :: ts' => if p = "+" then matchSegs ps ts' else (p == t) && matchSegs ps ts'

/-- Helper for `str.split("/")`: accumulates the current segment (in
reverse) while walking the characters. -/
def splitSegsAux : List Char → List Char → List String
  | [], cur => [String.mk cur.reverse]
  | c :: cs, cur =>
      if c = '/' then String.mk cur.reverse :: splitSegsAux cs []
      else splitSegsAux cs (c :: cur)

/-- Python `s.split("/")`: slash-delimited segments, preserving empty
segments, with `[""]` for the empty string. -/
def splitSlash (s : String) : List String := splitSegsAux s.data []

/-- Modelled from the spec: `topic_matches_sub(sub, topic)` splits both the
subscription pattern and the topic on `/` and compares segment-wise. -/
def topic_matches_sub (sub topic : String) : Bool :=
  matchSegs (splitSlash sub) (splitSlash topic)

/-- The raw bytes of an incoming message, classified by what the decode
pipeline (src/app/mqtt.py line 198) finds: bytes that are not valid UTF-8,
UTF-8 text that json.loads rejects, or UTF-8 text parsing to a JSON value.
The byte-level UTF-8 and JSON parsers are standard-library calls, abstracted
into this classification. -/
inductive RawPayload where
  | invalidUtf8
  | invalidJson
  | jsonValue (v : Json)

/-- `_decode_payload(payload)` (src/app/mqtt.py lines 196 to 205): the `try`
block catches only `json.JSONDecodeError`, so `payload.decode("utf-8")`
raising `UnicodeDecodeError` on non-UTF-8 bytes escapes uncaught; invalid
JSON is caught and yields None; a decoded non-object yields None; a decoded
object is returned. -/
def decode_payload : RawPayload → Except PyExc (Option JsonObj)
  | .invalidUtf8 => .error .unicodeDecodeError
  | .invalidJson => .ok none
  | .jsonValue (.obj kvs) => .ok (some kvs)
  | .jsonValue _ => .ok none

/-- `_device_id_from_topic(topic)` (src/app/mqtt.py lines 207 to 213): split
on `/`, find the first `device` segment, return the following segment when
there is one. -/
def device_id_from_topic (topic : String) : Option String :=
  let parts := splitSlash topic
  if "device" ∈ parts then
    let index := parts.indexOf "device"
    if index + 1 < parts.length then parts.get? (index + 1) else none
  else none

/-- `isinstance(v, list)` on a decoded JSON value. -/
def isJsonList : Json → Bool
  | .arr _ => true
  | _ => false

/-- `_handle_device_telemetry` (src/app/mqtt.py lines 154 to 162): decode
(propagating any uncaught decode exception), discard on None, else touch,
update the device record when the topic carries a device id, and merge the
payload into the aggregate fields.  The guard `if device_id:` at line 160 is
Python truthiness on an Optional[str]: both None and the empty string skip
the device update. -/
def handle_device_telemetry (now topic : String) (payload : RawPayload)
    (s : MQTTState) : PyResult MQTTState :=
  match decode_payload payload with
  | .error e => .exc e s
  | .ok none => .ok s
  | .ok (some message) =>
      let s1 := s.touch now
      let s2 := match device_id_from_topic topic with
                | some device_id =>
                    if device_id = "" then s1
                    else s1.update_device device_id message
                | none => s1
      s2.merge_payload message

/-- `_handle_device_state` (src/app/mqtt.py lines 164 to 172): identical body
to the telemetry handler, including the truthiness guard `if device_id:` at
line 170 under which None and the empty string both skip the device
update. -/
def handle_device_state (now topic : String) (payload : RawPayload)
    (s : MQTTState) : PyResult MQTTState :=
  match decode_payload payload with
  | .error e => .exc e s
  | .ok none => .ok s
  | .ok (some message) =>
      let s1 := s.touch now
      let s2 := match device_id_from_topic topic with
                | some device_id =>
                    if device_id = "" then s1
                    else s1.update_device device_id message
                | none => s1
      s2.merge_payload message

/-- `_handle_flow_state` (src/app/mqtt.py lines 174 to 179): decode, touch,
`self.state.flow.update(message)` with `message` a decoded object. -/
def handle_flow_state (now topic : String) (payload : RawPayload)
    (s : MQTTState) : PyResult MQTTState :=
  match decode_payload payload with
  | .error e => .exc e s
  | .ok none => .ok s
  | .ok (some message) =>
      let s1 := s.touch now
      .ok { s1 with flow := updateObjJ s1.flow message }

/-- `_handle_alerts` (src/app/mqtt.py lines 181 to 187): decode, touch, and
replace `alerts` only when `message.get("alerts")` is a list. -/
def handle_alerts (now topic : String) (payload : RawPayload)
    (s : MQTTState) : PyResult MQTTState :=
  match decode_payload payload with
  | .error e => .exc e s
  | .ok none => .ok s
  | .ok (some message) =>
      let s1 := s.touch now
      let v := getdS message "alerts" .null
      if isJsonList v then .ok { s1 with alerts := v } else .ok s1

/-- `_handle_camera` (src/app/mqtt.py lines 189 to 194): decode, touch,
`self.state.camera.update(message)`. -/
def handle_camera (now topic : String) (payload : RawPayload)
    (s : MQTTState) : PyResult MQTTState :=
  match decode_payload payload with
  | .error e => .exc e s
  | .ok none => .ok s
  | .ok (some message) =>
      let s1 := s.touch now
      .ok { s1 with camera := updateObjJ s1.camera message }

/-- A route binding (dataclass MQTTMessageRoute, src/app/mqtt.py lines 111 to
114), generic in the state the handler acts on. -/
structure MQTTMessageRoute (σ : Type) where
  subscription : String
  handler : String → RawPayload → σ → PyResult σ

/-- `MessageRouter.dispatch(topic, payload)` (src/app/mqtt.py lines 128 to
131): walk the routes in registration order and await the handler of every
route whose pattern matches; the body has no exception handling, so a
handler that raises aborts the loop and the exception propagates. -/
def dispatch {σ : Type} (routes : List (MQTTMessageRoute σ)) (topic : String)
    (payload : RawPayload) (s : σ) : PyResult σ :=
  match routes with
  | [] => .ok s
  | route :: rest =>
      if topic_matches_sub route.subscription topic then
        match route.handler topic payload s with
        | .ok s1 => dispatch rest topic payload s1
        | .exc e s1 => .exc e s1
      else dispatch rest topic payload s

/-- `_configure_routes` (src/app/mqtt.py lines 146 to 152): the five routes
in registration order, with `now` standing for the wall-clock instant a
handler invocation would read. -/
def configure_routes ( topic_prefix site_id now : String) :
    List (MQTTMessageRoute MQTTState) :=
  let base := topic_prefix ++ "/v1/site/" ++ site_id
  [ ⟨base ++ "/device/+/telemetry", handle_device_telemetry now⟩,
    ⟨base ++ "/device/+/state", handle_device_state now⟩,
    ⟨base ++ "/system/flow", handle_flow_state now⟩,
    ⟨base ++ "/system/alerts", handle_alerts now⟩,
    ⟨base ++ "/system/camera", handle_camera now⟩ ]

/-- How one call of `_run_session` (src/app/mqtt.py lines 241 to 256) ends,
as observed by the reconnect loop: it either returns normally or raises
`MqttError`; `msgs` counts the messages received before that point.  A
non-MqttError exception escaping a handler is modelled separately by
`SessionOutcome.crashed`, since `_run` catches only `MqttError`. -/
inductive SessionOutcome where
  | completed (msgs : Nat)
  | failed (msgs : Nat)
  | crashed
  deriving DecidableEq

/-- The value of `backoff` right after the try/except of `_run`
(src/app/mqtt.py lines 233 to 237): a session that completes normally resets
it to 1, a session that raises `MqttError` leaves it unchanged. -/
def backoffAfterSession (backoff : Nat) : SessionOutcome → Nat
  | .completed _ => 1
  | .failed _ => backoff
  | .crashed => backoff

/-- One iteration of the `while True` loop of `_run` (src/app/mqtt.py lines
232 to 239): the sleep observed is the post-try value of `backoff`, and the
next value is its double capped at 30. -/
def runStep (backoff : Nat) (o : SessionOutcome) : Nat × Nat :=
  let b := backoffAfterSession backoff o
  (b, min (b * 2) 30)

/-- The sleep delays `_run` performs across a trace of session outcomes,
starting from the given `backoff` value (line 231 initialises it to 1).  A
crashed session propagates its exception out of the loop before the sleep
statement is reached. -/
def runSleeps (backoff : Nat) : List SessionOutcome → List Nat
  | [] => []
  | .crashed :: _ => []
  | o :: os =>
      let p := runStep backoff o
      p.1 :: runSleeps p.2 os

/-- Python object identity for the snapshot claim: the heap maps the address
of each mutable container to its contents (the dict-valued containers are
the ones the claim's mutation test inspects). -/
def Heap := Nat → PyDict

/-- In-place mutation of the container at address `a`. -/
def heapWrite (h : Heap) (a : Nat) (d : PyDict) : Heap :=
  fun x => if x = a then d else h x

/-- The aggregate state at the reference level: the dataclass fields hold
references to heap-allocated containers (`timestamp` is an immutable
string, held by value). -/
structure MQTTStateRefs where
  timestamp : String
  environment : Nat
  reservoir : Nat
  lighting : Nat
  flow : Nat
  alerts : Nat
  camera : Nat
  devices : Nat
  deriving DecidableEq

/-- The dict literal `snapshot()` returns (src/app/mqtt.py lines 80 to 90):
a fresh top-level mapping whose entries are the values of the dataclass
fields. -/
structure SnapshotView where
  timestamp : String
  environment : Nat
  reservoir : Nat
  lighting : Nat
  flow : Nat
  alerts : Nat
  camera : Nat
  devices : Nat
  deriving DecidableEq

/-- `snapshot()` at the reference level: each entry of the returned dict is
the same reference the store's field holds; no container is copied. -/
def MQTTStateRefs.snapshot (s : MQTTStateRefs) : SnapshotView :=
  { timestamp := s.timestamp
    environment := s.environment
    reservoir := s.reservoir
    lighting := s.lighting
    flow := s.flow
    alerts := s.alerts
    camera := s.camera
    devices := s.devices }

/-- `isinstance(v, dict)` on a decoded JSON value. -/
def isJsonObject : Json → Bool
  | .obj _ => true
  | _ => false

/-- The key `k`, when present in the decoded object `p`, maps to a JSON
object (the well-typedness condition under which `dict.update` cannot
raise). -/
def objOrAbsent (p : JsonObj) (k : String) : Bool :=
  match lookupA p k with
  | none => true
  | some v => isJsonObject v

/-- A concrete route whose handler always raises, registered on `a/#`
(state type Nat so that an invoked handler leaves a visible trace). -/
def raisingRoute : MQTTMessageRoute Nat :=
  { subscription := "a/#", handler := fun _ _ n => .exc .testError n }

/-- A concrete route whose handler increments the state, registered on
`a/b`. -/
def countingRoute : MQTTMessageRoute Nat :=
  { subscription := "a/b", handler := fun _ _ n => .ok (n + 1) }

/-- A concrete reference-level store: the seven containers live at heap
addresses 0 through 6. -/
def refState0 : MQTTStateRefs :=
  { timestamp := "t0", environment := 0, reservoir := 1, lighting := 2,
    flow := 3, alerts := 4, camera := 5, devices := 6 }

/-- A concrete heap holding the default environment dict at address 0. -/
def heap0 : Heap := fun a =>
  if a = 0 then (initialState "t0").environment else []

/-! ## Helper lemmas about the dict operations -/

theorem lookupJ_setItemJ_self (d : PyDict) (k : PyKey) (v : Json) :
    lookupJ (setItemJ d k v) k = some v := by
  induction d with
  | nil => simp [setItemJ, lookupJ]
  | cons kv rest ih =>
      obtain ⟨k0, v0⟩ := kv
      by_cases h : k0 = k
      · simp [setItemJ, h, lookupJ]
      · simp [setItemJ, h, lookupJ, ih]

theorem lookupJ_setItemJ_ne (d : PyDict) (k k' : PyKey) (v : Json) (h : k' ≠ k) :
    lookupJ (setItemJ d k v) k' = lookupJ d k' := by
  induction d with
  | nil =>
      simp [setItemJ, lookupJ, h.symm]
  | cons kv rest ih =>
      obtain ⟨k0, v0⟩ := kv
      by_cases h0 : k0 = k
      · subst h0
        simp [setItemJ, lookupJ, h.symm]
      · simp [setItemJ, h0, lookupJ, ih]

theorem lookupA_setA_self {α : Type} (m : List (String × α)) (k : String) (v : α) :
    lookupA (setA m k v) k = some v := by
  induction m with
  | nil => simp [setA, lookupA]
  | cons kv rest ih =>
      obtain ⟨k0, v0⟩ := kv
      by_cases h : k0 = k
      · simp [setA, h, lookupA]
      · simp [setA, h, lookupA, ih]

theorem lookupA_setA_ne {α : Type} (m : List (String × α)) (k k' : String) (v : α)
    (h : k' ≠ k) : lookupA (setA m k v) k' = lookupA m k' := by
  induction m with
  | nil =>
      simp [setA, lookupA, h.symm]
  | cons kv rest ih =>
      obtain ⟨k0, v0⟩ := kv
      by_cases h0 : k0 = k
      · subst h0
        simp [setA, lookupA, h.symm]
      · simp [setA, h0, lookupA, ih]

/-! ## Helper lemmas about the reconnect loop -/

theorem min_double_cap (a : Nat) : min (min a 30 * 2) 30 = min (a * 2) 30 := by
  omega

theorem runSleeps_cons_failed (b m : Nat) (os : List SessionOutcome) :
    runSleeps b (SessionOutcome.failed m :: os) =
      b :: runSleeps (min (b * 2) 30) os := rfl

theorem runSleeps_failed_pow (n k : Nat) :
    runSleeps (min (2 ^ k) 30) (List.replicate n (SessionOutcome.failed 0)) =
      (List.range n).map fun i => min (2 ^ (k + i)) 30 := by
  induction n generalizing k with
  | zero => simp [runSleeps]
  | succ n ih =>
      rw [List.replicate_succ, runSleeps_cons_failed, List.range_succ_eq_map,
        List.map_cons, List.map_map]
      congr 1
      rw [min_double_cap, ← Nat.pow_succ, ih (k + 1)]
      have harith : ∀ i : Nat, k + 1 + i = k + (i + 1) := by omega
      simp [Function.comp_def, harith]

/-! ## Helper lemmas about merge_payload -/

theorem pyseq_ok_elim {σ : Type} {a b : σ → PyResult σ} {s s' : σ}
    (h : pyseq a b s = .ok s') : ∃ s1, a s = .ok s1 ∧ b s1 = .ok s' := by
  unfold pyseq at h
  split at h
  · rename_i s1 heq
    exact ⟨s1, heq, h⟩
  · cases h

theorem mergeEnvironment_ok_frame {p : JsonObj} {s s1 : MQTTState}
    (h : mergeEnvironment p s = .ok s1) :
    s1 = { s with environment := s1.environment } := by
  unfold mergeEnvironment at h
  split at h
  · cases h; rfl
  · cases h

theorem mergeReservoir_ok_frame {p : JsonObj} {s s1 : MQTTState}
    (h : mergeReservoir p s = .ok s1) :
    s1 = { s with reservoir := s1.reservoir } := by
  unfold mergeReservoir at h
  split at h
  · cases h; rfl
  · cases h

theorem mergeLighting_ok_frame {p : JsonObj} {s s1 : MQTTState}
    (h : mergeLighting p s = .ok s1) :
    s1 = { s with lighting := s1.lighting } := by
  unfold mergeLighting at h
  split at h
  · cases h; rfl
  · cases h

theorem mergeCamera_ok_frame {p : JsonObj} {s s1 : MQTTState}
    (h : mergeCamera p s = .ok s1) :
    s1 = { s with camera := s1.camera } := by
  unfold mergeCamera at h
  split at h
  · cases h; rfl
  · cases h

theorem mergeFlow_ok_frame {p : JsonObj} {s s1 : MQTTState}
    (h : mergeFlow p s = .ok s1) :
    s1 = { s with flow := s1.flow } := by
  unfold mergeFlow at h
  split at h
  · cases h; rfl
  · split at h
    · cases h; rfl
    · cases h

theorem mergeEnvironment_ok_exists (p : JsonObj) (s : MQTTState)
    (h : objOrAbsent p "environment" = true) :
    ∃ s1, mergeEnvironment p s = .ok s1 := by
  unfold mergeEnvironment getdS
  cases hl : lookupA p "environment" with
  | none => exact ⟨_, rfl⟩
  | some v =>
      unfold objOrAbsent at h
      rw [hl] at h
      cases v <;> simp [isJsonObject] at h
      exact ⟨_, rfl⟩

theorem mergeReservoir_ok_exists (p : JsonObj) (s : MQTTState)
    (h : objOrAbsent p "reservoir" = true) :
    ∃ s1, mergeReservoir p s = .ok s1 := by
  unfold mergeReservoir getdS
  cases hl : lookupA p "reservoir" with
  | none => exact ⟨_, rfl⟩
  | some v =>
      unfold objOrAbsent at h
      rw [hl] at h
      cases v <;> simp [isJsonObject] at h
      exact ⟨_, rfl⟩

theorem mergeLighting_ok_exists (p : JsonObj) (s : MQTTState)
    (h : objOrAbsent p "lighting" = true) :
    ∃ s1, mergeLighting p s = .ok s1 := by
  unfold mergeLighting getdS
  cases hl : lookupA p "lighting" with
  | none => exact ⟨_, rfl⟩
  | some v =>
      unfold objOrAbsent at h
      rw [hl] at h
      cases v <;> simp [isJsonObject] at h
      exact ⟨_, rfl⟩

theorem mergeCamera_ok_exists (p : JsonObj) (s : MQTTState)
    (h : objOrAbsent p "camera" = true) :
    ∃ s1, mergeCamera p s = .ok s1 := by
  unfold mergeCamera getdS
  cases hl : lookupA p "camera" with
  | none => exact ⟨_, rfl⟩
  | some v =>
      unfold objOrAbsent at h
      rw [hl] at h
      cases v <;> simp [isJsonObject] at h
      exact ⟨_, rfl⟩

theorem mergeFlow_ok_exists (p : JsonObj) (s : MQTTState)
    (h : objOrAbsent p "flow" = true) :
    ∃ s1, mergeFlow p s = .ok s1 := by
  unfold mergeFlow
  cases hl : lookupA p "flow" with
  | none => exact ⟨_, rfl⟩
  | some v =>
      unfold objOrAbsent at h
      rw [hl] at h
      cases v <;> simp [isJsonObject] at h
      exact ⟨_, rfl⟩

theorem mergeAlerts_ok_exists (p : JsonObj) (s : MQTTState) :
    ∃ s1, mergeAlerts p s = .ok s1 := by
  unfold mergeAlerts
  cases hl : lookupA p "alerts" with
  | none => exact ⟨_, rfl⟩
  | some v => exact ⟨_, rfl⟩

/-! ## Claim theorems -/

/-- C3: in the reconnect loop `_run`, starting from backoff = 1, the sleep
delays across consecutive failed sessions are 1, 2, 4, 8, 16, 30, 30, ...
(each delay is the previous doubled, capped at 30; the i-th delay is
min(2^i, 30)), and the backoff variable is reset to 1 after any session that
completes successfully having received at least one message. -/
theorem run_backoff_sequence :
    (∀ n : Nat,
      runSleeps 1 (List.replicate n (SessionOutcome.failed 0)) =
        (List.range n).map fun i => min (2 ^ i) 30) ∧
    (∀ b m : Nat, 1 ≤ m →
      backoffAfterSession b (SessionOutcome.completed m) = 1) := by
  constructor
  · intro n
    have h := runSleeps_failed_pow n 0
    simpa using h
  · intro b m _
    rfl

/-- C3 witness: the first eight delays of an all-failing run are
1, 2, 4, 8, 16, 30, 30, 30, and a session completing with one message
received resets a backoff of 16 to 1. -/
theorem run_backoff_sequence_witness :
    runSleeps 1 (List.replicate 8 (SessionOutcome.failed 0)) =
      [1, 2, 4, 8, 16, 30, 30, 30] ∧
    backoffAfterSession 16 (SessionOutcome.completed 1) = 1 :=
  ⟨(run_backoff_sequence.1 8).trans (by decide),
   run_backoff_sequence.2 16 1 (by decide)⟩

/-- C4: topic matching is hierarchical and segment-count-sensitive: `+`
consumes exactly one topic segment (and fails on an exhausted topic), a
final `#` matches zero or more remaining segments, any other pattern segment
is compared literally; concretely `a/+/c` matches `a/b/c` but not
`a/b/c/d`, and `a/#` matches `a`, `a/b` and `a/b/c`. -/
theorem topic_matching_hierarchical :
    (∀ (ps : List String) (t : String) (ts : List String),
      matchSegs ("+" :: ps) (t :: ts) = matchSegs ps ts) ∧
    (∀ ps : List String, matchSegs ("+" :: ps) [] = false) ∧
    (∀ ts : List String, matchSegs ["#"] ts = true) ∧
    (∀ (p : String) (ps : List String) (t : String) (ts : List String),
      p ≠ "+" → p ≠ "#" →
      matchSegs (p :: ps) (t :: ts) = ((p == t) && matchSegs ps ts)) ∧
    (∀ (p : String) (ps : List String), p ≠ "#" →
      matchSegs (p :: ps) [] = false) ∧
    topic_matches_sub "a/+/c" "a/b/c" = true ∧
    topic_matches_sub "a/+/c" "a/b/c/d" = false ∧
    topic_matches_sub "a/#" "a" = true ∧
    topic_matches_sub "a/#" "a/b" = true ∧
    topic_matches_sub "a/#" "a/b/c" = true := by
  refine ⟨?_, ?_, ?_, ?_, ?_, by decide, by decide, by decide, by decide, by decide⟩
  · intro ps t ts
    simp [matchSegs]
  · intro ps
    simp [matchSegs]
  · intro ts
    simp [matchSegs]
  · intro p ps t ts h1 h2
    simp [matchSegs, h1, h2]
  · intro p ps h
    simp [matchSegs, h]

/-- C4 witness: the literal-segment and plus-segment equations evaluated at
concrete segments. -/
theorem topic_matching_hierarchical_witness :
    matchSegs ["a", "c"] ["a", "b"] = (("a" == "a") && matchSegs ["c"] ["b"]) ∧
    matchSegs ["x"] [] = false :=
  ⟨topic_matching_hierarchical.2.2.2.1 "a" ["c"] "a" ["b"] (by decide) (by decide),
   topic_matching_hierarchical.2.2.2.2.1 "x" [] (by decide)⟩

/-- C7: merging a payload whose `environment` value sets only `ph` rewrites
exactly the `ph` key of the environment dict and nothing else: the resulting
state is the old state with environment updated in place, lookups at every
other key are unchanged, and the overwrite is shallow and key-wise. -/
theorem merge_payload_environment_shallow :
    (∀ (s : MQTTState) (q : ℚ),
      MQTTState.merge_payload [("environment", .obj [("ph", .num q)])] s =
        .ok { s with environment := setItemJ s.environment (.str "ph") (.num q) }) ∧
    (∀ (d : PyDict) (k : PyKey) (v : Json), lookupJ (setItemJ d k v) k = some v) ∧
    (∀ (d : PyDict) (k k' : PyKey) (v : Json), k' ≠ k →
      lookupJ (setItemJ d k v) k' = lookupJ d k') := by
  refine ⟨fun s q => rfl, lookupJ_setItemJ_self, lookupJ_setItemJ_ne⟩

/-- C7 witness: merging `ph` into the default state leaves the `ec` entry
(and every untouched field) as before while `ph` is replaced. -/
theorem merge_payload_environment_shallow_witness :
    MQTTState.merge_payload [("environment", .obj [("ph", .num 5)])]
        (initialState "t0") =
      .ok { initialState "t0" with
            environment := setItemJ (initialState "t0").environment
              (.str "ph") (.num 5) } ∧
    lookupJ (setItemJ (initialState "t0").environment (.str "ph") (.num 5))
        (.str "ec") =
      lookupJ (initialState "t0").environment (.str "ec") :=
  ⟨merge_payload_environment_shallow.1 (initialState "t0") 5,
   merge_payload_environment_shallow.2.2 (initialState "t0").environment
     (.str "ph") (.str "ec") (.num 5) (by decide)⟩

/-- C8: `update_device` creates the device record if absent, shallow-merges
the payload into it and stamps `last_seen` with the store's current
timestamp; a second call with a different key preserves the earlier key's
value alongside the new one. -/
theorem update_device_spec :
    (∀ (s : MQTTState) (device_id : String) (p : JsonObj),
      lookupA (MQTTState.update_device device_id p s).devices device_id =
        some (setA (updateObjS ((lookupA s.devices device_id).getD []) p)
          "last_seen" (.str s.timestamp))) ∧
    (MQTTState.update_device "pump-1" [("flow_rate", .num 2.3)]
        (initialState "t0")).devices =
      [("pump-1", [("flow_rate", .num 2.3), ("last_seen", .str "t0")])] ∧
    (∀ (s : MQTTState) (device_id k1 k2 : String) (v1 v2 : Json),
      k1 ≠ k2 → k1 ≠ "last_seen" → k2 ≠ "last_seen" →
      lookupA ((lookupA (MQTTState.update_device device_id [(k2, v2)]
          (MQTTState.update_device device_id [(k1, v1)] s)).devices
            device_id).getD []) k1 = some v1 ∧
      lookupA ((lookupA (MQTTState.update_device device_id [(k2, v2)]
          (MQTTState.update_device device_id [(k1, v1)] s)).devices
            device_id).getD []) k2 = some v2) := by
  refine ⟨?_, rfl, ?_⟩
  · intro s device_id p
    simp [MQTTState.update_device, lookupA_setA_self]
  · intro s device_id k1 k2 v1 v2 hne h1 h2
    simp only [MQTTState.update_device, lookupA_setA_self, Option.getD_some,
      updateObjS]
    constructor
    · rw [lookupA_setA_ne _ _ _ _ h1, lookupA_setA_ne _ _ _ _ hne,
        lookupA_setA_ne _ _ _ _ h1, lookupA_setA_self]
    · rw [lookupA_setA_ne _ _ _ _ h2, lookupA_setA_self]

/-- C8 witness: creating `pump-1` with `flow_rate` and then updating it with
`mode` keeps both keys. -/
theorem update_device_spec_witness :
    lookupA ((lookupA (MQTTState.update_device "pump-1" [("mode", .str "auto")]
        (MQTTState.update_device "pump-1" [("flow_rate", .num 2.3)]
          (initialState "t0"))).devices "pump-1").getD []) "flow_rate" =
      some (.num 2.3) ∧
    lookupA ((lookupA (MQTTState.update_device "pump-1" [("mode", .str "auto")]
        (MQTTState.update_device "pump-1" [("flow_rate", .num 2.3)]
          (initialState "t0"))).devices "pump-1").getD []) "mode" =
      some (.str "auto") :=
  update_device_spec.2.2 (initialState "t0") "pump-1" "flow_rate" "mode"
    (.num 2.3) (.str "auto") (by decide) (by decide) (by decide)

/-- C10: a successfully decoded alerts message whose `alerts` key is absent
or not a list still updates the timestamp via `touch()` while leaving the
alerts sequence and every other state field unchanged. -/
theorem alerts_handler_rejected_payload_touches_timestamp
    (now topic : String) (s : MQTTState) (kvs : JsonObj)
    (h : isJsonList (getdS kvs "alerts" .null) = false) :
    handle_alerts now topic (.jsonValue (.obj kvs)) s =
      .ok { s with timestamp := now } := by
  simp [handle_alerts, decode_payload, MQTTState.touch, h]

/-- C10 witness: an alerts payload carrying a non-list `alerts` value only
advances the timestamp of the default state. -/
theorem alerts_handler_rejected_payload_touches_timestamp_witness :
    handle_alerts "t1" "hydromatic/v1/site/primary/system/alerts"
        (.jsonValue (.obj [("alerts", .num 1)])) (initialState "t0") =
      .ok { initialState "t0" with timestamp := "t1" } :=
  alerts_handler_rejected_payload_touches_timestamp "t1"
    "hydromatic/v1/site/primary/system/alerts" (initialState "t0")
    [("alerts", .num 1)] (by decide)

/-- C1 counterexample: `snapshot()` does not return a non-aliasing copy: an
in-place write to the dict reached through the returned snapshot's
`environment` entry is observed through the store's own `environment` field,
whose referenced contents change from the default dict. -/
theorem snapshot_not_copy_counterexample :
    heapWrite heap0 refState0.snapshot.environment [(.str "ph", .num 99)]
        refState0.environment = [(.str "ph", .num 99)] ∧
    heap0 refState0.environment ≠ [(.str "ph", .num 99)] := by
  refine ⟨rfl, fun h => ?_⟩
  simpa [heap0, refState0, initialState] using congrArg List.length h

/-- C1 amended: `snapshot()` copies the timestamp string by value, but every
container entry of the returned dict is the very reference held by the
store's field (no copy), so an in-place write through the snapshot's
environment entry is observed through the store. -/
theorem snapshot_shares_references (s : MQTTStateRefs) :
    s.snapshot.timestamp = s.timestamp ∧
    s.snapshot.environment = s.environment ∧
    s.snapshot.reservoir = s.reservoir ∧
    s.snapshot.lighting = s.lighting ∧
    s.snapshot.flow = s.flow ∧
    s.snapshot.alerts = s.alerts ∧
    s.snapshot.camera = s.camera ∧
    s.snapshot.devices = s.devices ∧
    (∀ (h : Heap) (d : PyDict),
      heapWrite h s.snapshot.environment d s.environment = d) := by
  refine ⟨rfl, rfl, rfl, rfl, rfl, rfl, rfl, rfl, fun h d => ?_⟩
  simp [heapWrite, MQTTStateRefs.snapshot]

/-- C2 counterexample: with a raising handler on `a/#` registered before a
counting handler on `a/b`, both patterns match the topic `a/b`, yet dispatch
propagates the first handler's exception and never invokes the second
handler (the state stays 0). -/
theorem dispatch_handler_exception_counterexample :
    topic_matches_sub raisingRoute.subscription "a/b" = true ∧
    topic_matches_sub countingRoute.subscription "a/b" = true ∧
    dispatch [raisingRoute, countingRoute] "a/b" .invalidJson 0 =
      .exc .testError 0 :=
  ⟨by decide, by decide, rfl⟩

/-- C2 amended: dispatch invokes the handlers of all matching routes in
registration order as long as no handler raises, but an exception raised by
a matching handler propagates out of dispatch and prevents the remaining
routes from being visited. -/
theorem dispatch_order_and_exception_abort {σ : Type} :
    (∀ (rs : List (String × (String → RawPayload → σ → σ)))
        (t : String) (p : RawPayload) (s : σ),
      dispatch (rs.map fun r =>
          ⟨r.1, fun t' p' s' => .ok (r.2 t' p' s')⟩) t p s =
        .ok ((rs.filter fun r => topic_matches_sub r.1 t).foldl
          (fun s' r => r.2 t p s') s)) ∧
    (∀ (r : MQTTMessageRoute σ) (rest : List (MQTTMessageRoute σ))
        (t : String) (p : RawPayload) (s s1 : σ) (e : PyExc),
      topic_matches_sub r.subscription t = true →
      r.handler t p s = .exc e s1 →
      dispatch (r :: rest) t p s = .exc e s1) := by
  constructor
  · intro rs t p s
    induction rs generalizing s with
    | nil => rfl
    | cons r rest ih =>
        by_cases h : topic_matches_sub r.1 t
        · simp [dispatch, List.filter_cons, h, ih]
        · simp [dispatch, List.filter_cons, h, ih]
  · intro r rest t p s s1 e hm he
    simp [dispatch, hm, he]

/-- C2 witness: with two total handlers both matching `a/b`, dispatch folds
them in registration order; with the raising route alone, dispatch
propagates its exception. -/
theorem dispatch_order_and_exception_abort_witness :
    dispatch [⟨"a/b", fun t' p' n => .ok ((fun _ _ n => n + 1) t' p' n)⟩,
        ⟨"a/+", fun t' p' n => .ok ((fun _ _ n => n * 10) t' p' n)⟩]
      "a/b" .invalidJson 0 = .ok 10 ∧
    dispatch [raisingRoute] "a/b" .invalidJson 5 = .exc .testError 5 := by
  constructor
  · exact (dispatch_order_and_exception_abort.1
      [("a/b", fun _ _ n => n + 1), ("a/+", fun _ _ (n : Nat) => n * 10)]
      "a/b" .invalidJson 0).trans (by rfl)
  · exact dispatch_order_and_exception_abort.2 raisingRoute [] "a/b"
      .invalidJson 5 5 .testError (by decide) rfl

/-- C5: the code contradicts the claim for non-UTF-8 bytes: the except
clause of `_decode_payload` catches only `json.JSONDecodeError`, so
`UnicodeDecodeError` escapes every handler and propagates to the router,
while invalid JSON and non-object JSON are indeed discarded locally with the
state completely unchanged. -/
theorem decode_error_handling :
    (∀ (now topic : String) (s : MQTTState),
      handle_device_telemetry now topic .invalidUtf8 s =
        .exc .unicodeDecodeError s ∧
      handle_device_state now topic .invalidUtf8 s =
        .exc .unicodeDecodeError s ∧
      handle_flow_state now topic .invalidUtf8 s =
        .exc .unicodeDecodeError s ∧
      handle_alerts now topic .invalidUtf8 s = .exc .unicodeDecodeError s ∧
      handle_camera now topic .invalidUtf8 s = .exc .unicodeDecodeError s) ∧
    (∀ (now topic : String) (s : MQTTState),
      handle_device_telemetry now topic .invalidJson s = .ok s ∧
      handle_device_state now topic .invalidJson s = .ok s ∧
      handle_flow_state now topic .invalidJson s = .ok s ∧
      handle_alerts now topic .invalidJson s = .ok s ∧
      handle_camera now topic .invalidJson s = .ok s) ∧
    (∀ (now topic : String) (s : MQTTState) (v : Json),
      isJsonObject v = false →
      handle_device_telemetry now topic (.jsonValue v) s = .ok s ∧
      handle_device_state now topic (.jsonValue v) s = .ok s ∧
      handle_flow_state now topic (.jsonValue v) s = .ok s ∧
      handle_alerts now topic (.jsonValue v) s = .ok s ∧
      handle_camera now topic (.jsonValue v) s = .ok s) := by
  refine ⟨fun now topic s => ⟨rfl, rfl, rfl, rfl, rfl⟩,
          fun now topic s => ⟨rfl, rfl, rfl, rfl, rfl⟩,
          fun now topic s v h => ?_⟩
  cases v with
  | obj kvs => simp [isJsonObject] at h
  | null => exact ⟨rfl, rfl, rfl, rfl, rfl⟩
  | bool b => exact ⟨rfl, rfl, rfl, rfl, rfl⟩
  | num q => exact ⟨rfl, rfl, rfl, rfl, rfl⟩
  | str t => exact ⟨rfl, rfl, rfl, rfl, rfl⟩
  | arr xs => exact ⟨rfl, rfl, rfl, rfl, rfl⟩

/-- C5 witness: a decoded non-object payload (a JSON array) is discarded by
the alerts handler with the default state unchanged. -/
theorem decode_error_handling_witness :
    handle_alerts "t1" "top" (.jsonValue (.arr [])) (initialState "t0") =
      .ok (initialState "t0") :=
  (decode_error_handling.2.2 "t1" "top" (initialState "t0") (.arr [])
    (by decide)).2.2.2.1

/-- C6 counterexample: `merge_payload` replaces `alerts` even when the
payload's `alerts` value is not a list: merging an `alerts` key carrying the
number 1 into the default state overwrites the alerts sequence with that
number, so a non-list value does not leave the existing alerts untouched. -/
theorem merge_alerts_nonlist_replaced_counterexample :
    isJsonList (Json.num 1) = false ∧
    MQTTState.merge_payload [("alerts", Json.num 1)] (initialState "t0") =
      .ok { initialState "t0" with alerts := Json.num 1 } ∧
    ({ initialState "t0" with alerts := Json.num 1 } : MQTTState).alerts ≠
      (initialState "t0").alerts := by
  refine ⟨rfl, rfl, ?_⟩
  simp [initialState]

/-- C6 amended: in `merge_payload` the alerts sequence is replaced exactly
when the payload contains an `alerts` key, regardless of whether its value
is a list; the isinstance-list guard exists only in the alerts handler
`_handle_alerts`, which replaces alerts only for list values. -/
theorem merge_payload_alerts_replaced_iff_present :
    (∀ (p : JsonObj) (s s' : MQTTState),
      MQTTState.merge_payload p s = .ok s' →
      s'.alerts = (lookupA p "alerts").getD s.alerts) ∧
    (∀ (now topic : String) (s : MQTTState) (kvs : JsonObj) (v : Json),
      lookupA kvs "alerts" = some v → isJsonList v = true →
      handle_alerts now topic (.jsonValue (.obj kvs)) s =
        .ok { s with timestamp := now, alerts := v }) := by
  constructor
  · intro p s s' h
    unfold MQTTState.merge_payload at h
    obtain ⟨s1, h1, h⟩ := pyseq_ok_elim h
    obtain ⟨s2, h2, h⟩ := pyseq_ok_elim h
    obtain ⟨s3, h3, h⟩ := pyseq_ok_elim h
    obtain ⟨s4, h4, h⟩ := pyseq_ok_elim h
    obtain ⟨s5, h5, h⟩ := pyseq_ok_elim h
    have a1 : s1.alerts = s.alerts := by rw [mergeEnvironment_ok_frame h1]
    have a2 : s2.alerts = s1.alerts := by rw [mergeReservoir_ok_frame h2]
    have a3 : s3.alerts = s2.alerts := by rw [mergeLighting_ok_frame h3]
    have a4 : s4.alerts = s3.alerts := by rw [mergeCamera_ok_frame h4]
    have a5 : s5.alerts = s4.alerts := by rw [mergeFlow_ok_frame h5]
    unfold mergeAlerts at h
    split at h
    · rename_i hnone
      cases h
      rw [hnone, Option.getD_none, a5, a4, a3, a2, a1]
    · rename_i v hsome
      cases h
      rw [hsome, Option.getD_some]
  · intro now topic s kvs v h1 h2
    simp [handle_alerts, decode_payload, getdS, MQTTState.touch, h1, h2]

/-- C6 witness: a payload with a numeric `alerts` value makes the merge
store that number, and the alerts handler replaces alerts for an empty-list
value. -/
theorem merge_payload_alerts_replaced_iff_present_witness :
    ({ initialState "t0" with alerts := Json.num 1 } : MQTTState).alerts =
      (lookupA [("alerts", Json.num 1)] "alerts").getD
        (initialState "t0").alerts ∧
    handle_alerts "t1" "top" (.jsonValue (.obj [("alerts", .arr [])]))
        (initialState "t0") =
      .ok { initialState "t0" with timestamp := "t1", alerts := .arr [] } :=
  ⟨merge_payload_alerts_replaced_iff_present.1 [("alerts", Json.num 1)]
      (initialState "t0") _ rfl,
   merge_payload_alerts_replaced_iff_present.2 "t1" "top" (initialState "t0")
     [("alerts", .arr [])] (.arr []) rfl rfl⟩

/-- C9 counterexample: a decoded JSON object whose `environment` value is
the number 5 passes the handlers' decode validation, yet `merge_payload`
raises TypeError on it (`dict.update(5)`), so the store operations do have
an error condition on handler-accepted input. -/
theorem store_ops_raise_on_accepted_input_counterexample :
    decode_payload (.jsonValue (.obj [("environment", Json.num 5)])) =
      .ok (some [("environment", Json.num 5)]) ∧
    MQTTState.merge_payload [("environment", Json.num 5)] (initialState "t0") =
      .exc .typeError (initialState "t0") :=
  ⟨rfl, rfl⟩

/-- C9 amended: `merge_payload` completes without raising provided each of
the `environment`, `reservoir`, `lighting`, `camera` and `flow` keys, when
present in the decoded object, maps to a JSON object; a decoded object with
a non-object under one of those keys can make `merge_payload` raise
(`update_device` itself never raises on a decoded object). -/
theorem merge_payload_ok_of_object_values (p : JsonObj) (s : MQTTState)
    (h1 : objOrAbsent p "environment" = true)
    (h2 : objOrAbsent p "reservoir" = true)
    (h3 : objOrAbsent p "lighting" = true)
    (h4 : objOrAbsent p "camera" = true)
    (h5 : objOrAbsent p "flow" = true) :
    ∃ s', MQTTState.merge_payload p s = .ok s' := by
  obtain ⟨s1, e1⟩ := mergeEnvironment_ok_exists p s h1
  obtain ⟨s2, e2⟩ := mergeReservoir_ok_exists p s1 h2
  obtain ⟨s3, e3⟩ := mergeLighting_ok_exists p s2 h3
  obtain ⟨s4, e4⟩ := mergeCamera_ok_exists p s3 h4
  obtain ⟨s5, e5⟩ := mergeFlow_ok_exists p s4 h5
  obtain ⟨s6, e6⟩ := mergeAlerts_ok_exists p s5
  refine ⟨s6, ?_⟩
  unfold MQTTState.merge_payload pyseq
  simp only [e1, e2, e3, e4, e5, e6]

/-- C9 witness: a well-typed device payload (object-valued `environment`)
merges without raising. -/
theorem merge_payload_ok_of_object_values_witness :
    ∃ s', MQTTState.merge_payload
      [("environment", .obj [("ph", .num 7)])] (initialState "t0") = .ok s' :=
  merge_payload_ok_of_object_values
    [("environment", .obj [("ph", .num 7)])] (initialState "t0")
    (by decide) (by decide) (by decide) (by decide) (by decide)

end Hydromatic
